import Mathlib

/-!
Shallow embedding of the serial-connection lifecycle coordinator of the
`arduino-ide` extension, together with the upload service flags.

Sources embedded:
* `src/arduino-ide-extension/src/browser/serial/serial-connection-manager.ts`
  (`SerialConnectionManager` and `PlotterFrontendContribution`),
* `src/unnamed/part_000` (`CoreServiceImpl`: `doUpload`, `upload`,
  `uploadUsingProgrammer`, `burnBootloader`, `isUploading`).

Modelling conventions:
* Each TypeScript method becomes a pure function over an explicit state record.
  The mutable fields of the class instance form the `SerialConnectionManager`
  structure; the external backend serial service is a separate `Backend` record
  (its only observable used by this code is whether the serial port is open).
* Results of external asynchronous calls (`core.isUploading()`,
  `serialService.connect`, `serialService.disconnect`, WebSocket construction)
  are supplied by an `Env` record: one call of each kind happens per embedded
  operation, so a per-operation oracle is faithful.
* Observable side effects (backend RPC calls, user-facing messages, timer
  scheduling and cancellation, WebSocket open/close, window operations) are
  recorded in an effect trace (`List Eff`) in source order.
* JavaScript truthiness of a number (`!!baudRate`, `if (this.wsPort)`,
  `wsPort &&`) is `truthyNat`: present and nonzero.
-/

/-- Board selected in the IDE; only its identity matters to this code. -/
structure Board where
  name : String
  fqbn : Option String
deriving Repr, DecidableEq

/-- Serial port; only `address` is read by the embedded code
(`this.config.port?.address`). -/
structure Port where
  address : String
deriving Repr, DecidableEq

/-- The coordinator stores a `Partial<SerialConfig>`: every field optional.
Field order (`board`, `port`, `baudRate`) matters because `setConfig` iterates
`Object.keys(this.config)` in insertion order. -/
structure OptionalSerialConfig where
  board : Option Board
  port : Option Port
  baudRate : Option Nat
deriving Repr, DecidableEq

/-- JavaScript truthiness of an optional number: `undefined`, `0` are falsy. -/
def truthyNat : Option Nat → Bool
  | none => false
  | some n => decide (n ≠ 0)

/-- `isSerialConfig(config)`: `!!config.board && !!config.baudRate && !!config.port`.
`board` and `port` are objects, truthy exactly when present; `baudRate` is a
number, truthy when present and nonzero. -/
def isSerialConfig (config : OptionalSerialConfig) : Bool :=
  config.board.isSome && truthyNat config.baudRate && config.port.isSome

/-- `Status` from `serial-service.ts`: `OK`, `NOT_CONNECTED`,
`ALREADY_CONNECTED`, plus `fromBool` for the boolean that `connect()` returns
in a `Status` position (`return Status.isOK(connectStatus);`). -/
inductive Status where
  | ok
  | notConnected
  | alreadyConnected
  | fromBool (b : Bool)
deriving Repr, DecidableEq

/-- `Status.isOK(status)`: `!!status && typeof status.message !== 'string'`.
`OK = {}` is truthy with no message; the error statuses carry a message; a
boolean in a `Status` position is `isOK` exactly when it is `true`. -/
def Status.isOK : Status → Bool
  | Status.ok => true
  | Status.notConnected => false
  | Status.alreadyConnected => false
  | Status.fromBool b => b

/-- `SerialError.ErrorCodes`. -/
inductive SerialErrorCode where
  | clientCancel
  | deviceBusy
  | deviceNotConfigured
deriving Repr, DecidableEq

/-- A serial error pushed by the backend: `{ code, config }`.  `code` is
`undefined` for unexpected errors. -/
structure SerialError where
  code : Option SerialErrorCode
  config : OptionalSerialConfig
deriving Repr, DecidableEq

/-- `Serial.Type`: the logical consumers of the serial connection. -/
inductive SerialType where
  | monitor
  | plotter
deriving Repr, DecidableEq

/-- Severity of a user-facing message (`messageService.error/warn/info`). -/
inductive Severity where
  | error
  | warn
  | info
deriving Repr, DecidableEq

/-- Tags identifying the distinct user-facing messages of the embedded code. -/
inductive MsgTag where
  | selectBoardToOpenSerial
  | cannotOpenWhenUploading
  | connectionBusy
  | deviceDisconnected
  | unexpectedError
  | failedAfterTenAttempts
  | reconnectingInSeconds (attempts : Nat)
  | couldNotOpenPlotter
deriving Repr, DecidableEq

/-- Observable side effects, recorded in source order. -/
inductive Eff where
  /-- `serialService.connect(this.config)` (the config object is passed as is). -/
  | beConnect (config : OptionalSerialConfig)
  /-- `serialService.disconnect()`. -/
  | beDisconnect
  /-- `serialService.updateWsConfigParam({ currentBaudrate, serialPort })`. -/
  | updateWsConfig (currentBaudrate : Option Nat) (serialPort : Option String)
  /-- A `messageService` notification. -/
  | message (sev : Severity) (tag : MsgTag)
  /-- `window.clearTimeout(this.reconnectTimeout)`. -/
  | clearReconnectTimeout
  /-- `window.setTimeout(() => this.connect(), timeout)`. -/
  | scheduleReconnect (delayMs : Nat)
  /-- `new WebSocket(ws://localhost:wsPort)`. -/
  | wsCreate (wsPort : Nat)
  /-- `this.webSocket.close()`. -/
  | wsClose
  /-- `this.window.focus()` in the plotter contribution. -/
  | focusWindow
  /-- `window.open(urlWithParams, 'serialPlotter')` carrying the ws port. -/
  | windowOpen (wsPort : Nat)
deriving Repr, DecidableEq

/-- Is this effect a call into the backend serial service? -/
def Eff.isBackendCall : Eff → Bool
  | Eff.beConnect _ => true
  | Eff.beDisconnect => true
  | _ => false

/-- The backend calls of a trace, in order. -/
def backendCalls (effs : List Eff) : List Eff :=
  effs.filter Eff.isBackendCall

/-- Is this effect the scheduling of a reconnect attempt? -/
def Eff.isSchedule : Eff → Bool
  | Eff.scheduleReconnect _ => true
  | _ => false

/-- Is this effect the cancellation of a previously scheduled reconnect? -/
def Eff.isClearTimer : Eff → Bool
  | Eff.clearReconnectTimeout => true
  | _ => false

/-- Is this effect the propagation of shared config to the relay channel? -/
def Eff.isUpdateWsConfig : Eff → Bool
  | Eff.updateWsConfig _ _ => true
  | _ => false

/-- The mutable instance fields of `SerialConnectionManager`. -/
structure SerialConnectionManager where
  /-- `_state`: the desired consumers, in insertion order. -/
  state : List SerialType
  /-- `config`: the partial serial configuration. -/
  config : OptionalSerialConfig
  /-- `serialErrors`: recent errors; its length scales the reconnect delay. -/
  serialErrors : List SerialError
  /-- `reconnectTimeout`: the pending timer handle, if any (we store the delay
  of the scheduled attempt as a surrogate handle; only presence matters). -/
  reconnectTimeout : Option Nat
  /-- `wsPort`: where the relay WebSocket server can be reached. -/
  wsPort : Option Nat
  /-- `webSocket`: whether the relay WebSocket object exists. -/
  webSocket : Bool
deriving Repr, DecidableEq

/-- The field initializers of the class. -/
def SerialConnectionManager.init : SerialConnectionManager :=
  { state := []
    config := { board := none, port := none, baudRate := none }
    serialErrors := []
    reconnectTimeout := none
    wsPort := none
    webSocket := false }

/-- The state of the external backend serial service observed by this code. -/
structure Backend where
  /-- `serialService.isSerialPortOpen()`. -/
  portOpen : Bool
deriving Repr, DecidableEq

/-- Oracle for the outcomes of external asynchronous calls made during one
embedded operation. -/
structure Env where
  /-- `core.isUploading()`. -/
  uploading : Bool
  /-- The `Status` the backend returns for `serialService.connect(...)`;
  the port ends up open exactly when it `isOK`. -/
  connectStatus : Status
  /-- The `Status` the backend returns for `serialService.disconnect()`;
  the port ends up closed exactly when it `isOK`. -/
  disconnectStatus : Status
  /-- Whether `new WebSocket(...)` succeeds (the `catch` branch of
  `createWsConnection` swallows a construction failure). -/
  wsCreateOk : Bool
deriving Repr, DecidableEq

/-- Result of an operation that returns a `Status`. -/
structure StepResult where
  status : Status
  mgr : SerialConnectionManager
  backend : Backend
  effs : List Eff
deriving Repr, DecidableEq

/-- Result of an operation that returns no status (`Promise<void>`). -/
structure MutResult where
  mgr : SerialConnectionManager
  backend : Backend
  effs : List Eff
deriving Repr, DecidableEq

/-- Result of `handleError` (it never mutates the backend). -/
structure ErrorResult where
  mgr : SerialConnectionManager
  effs : List Eff
deriving Repr, DecidableEq

/-- Result of `createWsConnection`. -/
structure WsResult where
  created : Bool
  mgr : SerialConnectionManager
  effs : List Eff
deriving Repr, DecidableEq

/-- `widgetsAttached(state?)`: `(state ? state : this._state).length > 0`. -/
def widgetsAttachedOn (state : List SerialType) : Bool :=
  decide (0 < state.length)

/-- `widgetsAttached()` on the current `_state`. -/
def SerialConnectionManager.widgetsAttached (self : SerialConnectionManager) : Bool :=
  widgetsAttachedOn self.state

/-- `handleWebSocketChanged(wsPort)`: saves the advertised relay port. -/
def SerialConnectionManager.handleWebSocketChanged (wsPort : Nat)
    (self : SerialConnectionManager) : SerialConnectionManager :=
  { self with wsPort := some wsPort }

/-- `connect()`: `ALREADY_CONNECTED` when the port is already open,
`NOT_CONNECTED` on an incomplete config, otherwise one backend connect whose
boolean-coerced success is returned (`return Status.isOK(connectStatus);`). -/
def SerialConnectionManager.connect (env : Env) (self : SerialConnectionManager)
    (backend : Backend) : StepResult :=
  if backend.portOpen then
    { status := Status.alreadyConnected, mgr := self, backend := backend, effs := [] }
  else if isSerialConfig self.config then
    let connectStatus := env.connectStatus
    { status := Status.fromBool connectStatus.isOK
      mgr := self
      backend := { portOpen := connectStatus.isOK }
      effs := [Eff.beConnect self.config] }
  else
    { status := Status.notConnected, mgr := self, backend := backend, effs := [] }

/-- `disconnect()`: `OK` without a backend call when the port is closed,
otherwise one backend disconnect; on success the saved relay port is cleared. -/
def SerialConnectionManager.disconnect (env : Env) (self : SerialConnectionManager)
    (backend : Backend) : StepResult :=
  if backend.portOpen then
    let status := env.disconnectStatus
    if status.isOK then
      { status := status
        mgr := { self with wsPort := none }
        backend := { portOpen := false }
        effs := [Eff.beDisconnect] }
    else
      { status := status, mgr := self, backend := backend, effs := [Eff.beDisconnect] }
  else
    { status := Status.ok, mgr := self, backend := backend, effs := [] }

/-- `createWsConnection()`: opens the relay WebSocket when a (truthy) relay
port is known; a construction failure is swallowed and reported as `false`. -/
def SerialConnectionManager.createWsConnection (env : Env)
    (self : SerialConnectionManager) : WsResult :=
  match self.wsPort with
  | none => { created := false, mgr := self, effs := [] }
  | some port =>
    if port = 0 then
      { created := false, mgr := self, effs := [] }
    else if env.wsCreateOk then
      { created := true, mgr := { self with webSocket := true }, effs := [Eff.wsCreate port] }
    else
      { created := false, mgr := self, effs := [] }

/-- `setState(newState)`: disconnects on a non-empty → empty transition,
connects on an empty → non-empty transition (refused while uploading — in
that branch the method returns early and `_state` is not updated). -/
def SerialConnectionManager.setState (env : Env) (newState : List SerialType)
    (self : SerialConnectionManager) (backend : Backend) : StepResult :=
  let oldState := self.state
  if widgetsAttachedOn oldState = true ∧ widgetsAttachedOn newState = false then
    let r := self.disconnect env backend
    { status := r.status, mgr := { r.mgr with state := newState }
      backend := r.backend, effs := r.effs }
  else if widgetsAttachedOn oldState = false ∧ widgetsAttachedOn newState = true then
    if env.uploading then
      { status := Status.notConnected, mgr := self, backend := backend
        effs := [Eff.message Severity.error MsgTag.cannotOpenWhenUploading] }
    else
      let r := self.connect env backend
      { status := r.status, mgr := { r.mgr with state := newState }
        backend := r.backend, effs := r.effs }
  else
    { status := Status.ok, mgr := { self with state := newState }
      backend := backend, effs := [] }

/-- `openSerial(type)`: rejects an incomplete config, is a no-op when the
consumer is already desired, otherwise appends the consumer and applies
`setState`; on success for the monitor it also creates the relay WebSocket. -/
def SerialConnectionManager.openSerial (env : Env) (type : SerialType)
    (self : SerialConnectionManager) (backend : Backend) : StepResult :=
  if isSerialConfig self.config = false then
    { status := Status.notConnected, mgr := self, backend := backend
      effs := [Eff.message Severity.error MsgTag.selectBoardToOpenSerial] }
  else if type ∈ self.state then
    { status := Status.ok, mgr := self, backend := backend, effs := [] }
  else
    let r := self.setState env (self.state ++ [type]) backend
    if r.status.isOK = true ∧ type = SerialType.monitor then
      let w := r.mgr.createWsConnection env
      { status := r.status, mgr := w.mgr, backend := r.backend, effs := r.effs ++ w.effs }
    else
      r

/-- `closeSerial(type)`: removes the first occurrence of the consumer (if
present) and applies `setState`; on success for the monitor (if the relay
WebSocket exists) it also closes the relay WebSocket. -/
def SerialConnectionManager.closeSerial (env : Env) (type : SerialType)
    (self : SerialConnectionManager) (backend : Backend) : StepResult :=
  if type ∈ self.state then
    let r := self.setState env (self.state.erase type) backend
    if r.status.isOK = true ∧ type = SerialType.monitor ∧ r.mgr.webSocket = true then
      { status := r.status, mgr := { r.mgr with webSocket := false }
        backend := r.backend, effs := r.effs ++ [Eff.wsClose] }
    else
      r
  else
    { status := Status.ok, mgr := self, backend := backend, effs := [] }

/-- Whether the `Object.keys(this.config).forEach` loop of `setConfig` sets
`configHasChanged`: some key of the stored config differs from the update. -/
def configChangedFrom (cur new : OptionalSerialConfig) : Bool :=
  decide (new.board ≠ cur.board) || decide (new.port ≠ cur.port) ||
    decide (new.baudRate ≠ cur.baudRate)

/-- The config after the merge loop of `setConfig`: each key whose value
differs is replaced by the update's value, the others are kept. -/
def mergedConfigFrom (cur new : OptionalSerialConfig) : OptionalSerialConfig :=
  { board := if new.board ≠ cur.board then new.board else cur.board
    port := if new.port ≠ cur.port then new.port else cur.port
    baudRate := if new.baudRate ≠ cur.baudRate then new.baudRate else cur.baudRate }

/-- `setConfig(newConfig)`: merges the changed keys; if anything changed while
a consumer is attached and no upload is in progress, pushes the merged baud
rate and port address to the relay shared config, then disconnects and
reconnects. Otherwise only the merge happens. -/
def SerialConnectionManager.setConfig (env : Env) (newConfig : OptionalSerialConfig)
    (self : SerialConnectionManager) (backend : Backend) : MutResult :=
  let merged := mergedConfigFrom self.config newConfig
  let self1 := { self with config := merged }
  if configChangedFrom self.config newConfig = true ∧
      self1.widgetsAttached = true ∧ env.uploading = false then
    let r1 := self1.disconnect env backend
    let r2 := r1.mgr.connect env r1.backend
    { mgr := r2.mgr, backend := r2.backend
      effs := Eff.updateWsConfig merged.baudRate (merged.port.map Port.address)
        :: (r1.effs ++ r2.effs) }
  else
    { mgr := self1, backend := backend, effs := [] }

/-- The state change performed by the `switch` of `handleError`: a
`DEVICE_BUSY` error is appended to `serialErrors`, the other codes leave the
manager unchanged. -/
def SerialConnectionManager.classifyError (error : SerialError)
    (self : SerialConnectionManager) : SerialConnectionManager :=
  match error.code with
  | some SerialErrorCode.deviceBusy =>
    { self with serialErrors := self.serialErrors ++ [error] }
  | _ => self

/-- The user-facing message issued by the `switch` of `handleError`. -/
def classifyErrorEffs (error : SerialError) : List Eff :=
  match error.code with
  | some SerialErrorCode.clientCancel => []
  | some SerialErrorCode.deviceBusy => [Eff.message Severity.warn MsgTag.connectionBusy]
  | some SerialErrorCode.deviceNotConfigured =>
    [Eff.message Severity.info MsgTag.deviceDisconnected]
  | none => [Eff.message Severity.error MsgTag.unexpectedError]

/-- `handleError(error)`: ignored when the port is not open; otherwise the
error is classified, and if a consumer is attached either the coordinator
gives up (10 errors reached: warn and clear the history) or it cancels any
pending retry timer and schedules one reconnect after
`(serialErrors.length || 1) * 1000` ms. -/
def SerialConnectionManager.handleError (error : SerialError)
    (self : SerialConnectionManager) (backend : Backend) : ErrorResult :=
  if backend.portOpen = false then
    { mgr := self, effs := [] }
  else
    let self1 := self.classifyError error
    let effs1 := classifyErrorEffs error
    if self1.widgetsAttached then
      if 10 ≤ self1.serialErrors.length then
        { mgr := { self1 with serialErrors := [] }
          effs := effs1 ++ [Eff.message Severity.warn MsgTag.failedAfterTenAttempts] }
      else
        let attempts := if self1.serialErrors.length = 0 then 1 else self1.serialErrors.length
        let clearEffs :=
          if self1.reconnectTimeout.isSome then [Eff.clearReconnectTimeout] else []
        let timeout := attempts * 1000
        { mgr := { self1 with reconnectTimeout := some timeout }
          effs := effs1 ++ clearEffs
            ++ [Eff.message Severity.warn (MsgTag.reconnectingInSeconds attempts),
                Eff.scheduleReconnect timeout] }
    else
      { mgr := self1, effs := effs1 }

/-- The mutable state of `PlotterFrontendContribution`: whether the plotter
window handle is set. -/
structure PlotterFrontendContribution where
  window : Bool
deriving Repr, DecidableEq

/-- Result of the plotter contribution's `connect()`. -/
structure PlotterResult where
  plotter : PlotterFrontendContribution
  mgr : SerialConnectionManager
  backend : Backend
  effs : List Eff
deriving Repr, DecidableEq

/-- The failure path of the plotter's `connect()`: close the plotter consumer
again and report the error. -/
def plotterConnectFail (env : Env) (self : PlotterFrontendContribution)
    (mgr : SerialConnectionManager) (backend : Backend) (effs : List Eff) :
    PlotterResult :=
  let r2 := mgr.closeSerial env SerialType.plotter backend
  { plotter := self, mgr := r2.mgr, backend := r2.backend
    effs := effs ++ r2.effs ++ [Eff.message Severity.error MsgTag.couldNotOpenPlotter] }

/-- `PlotterFrontendContribution.connect()`: focus the existing window if one
is open; otherwise open the plotter consumer and, when that succeeded and a
(truthy) relay port is known, open the plotter window, else roll back. -/
def PlotterFrontendContribution.connect (env : Env)
    (self : PlotterFrontendContribution) (serialConnection : SerialConnectionManager)
    (backend : Backend) : PlotterResult :=
  if self.window then
    { plotter := self, mgr := serialConnection, backend := backend
      effs := [Eff.focusWindow] }
  else
    let r := serialConnection.openSerial env SerialType.plotter backend
    match r.mgr.wsPort with
    | some wsPort =>
      if r.status.isOK = true ∧ wsPort ≠ 0 then
        { plotter := { window := true }, mgr := r.mgr, backend := r.backend
          effs := r.effs ++ [Eff.windowOpen wsPort] }
      else
        plotterConnectFail env self r.mgr r.backend r.effs
    | none => plotterConnectFail env self r.mgr r.backend r.effs

/-- The mutable state of `CoreServiceImpl`: the `uploading` flag. -/
structure CoreServiceImpl where
  uploading : Bool
deriving Repr, DecidableEq

/-- The node-side serial service as seen by `CoreServiceImpl`: its
`uploadInProgress` flag and whether the serial port is open (`disconnect()`
closes it before an upload). -/
structure NodeSerialService where
  uploadInProgress : Bool
  portOpen : Bool
deriving Repr, DecidableEq

/-- `isUploading()`. -/
def CoreServiceImpl.isUploading (self : CoreServiceImpl) : Bool :=
  self.uploading

/-- Oracle for the outcomes of the external calls made by an upload: whether
the compilation step throws, and whether the gRPC response stream rejects. -/
structure CoreEnv where
  compileFails : Bool
  streamFails : Bool
deriving Repr, DecidableEq

/-- Result of an upload-family operation: whether the returned promise
rejected, and the final states. -/
structure UploadResult where
  threw : Bool
  core : CoreServiceImpl
  serial : NodeSerialService
deriving Repr, DecidableEq

/-- `doUpload(options, ...)`: compiles first (a compilation failure rethrows
before the flags are touched); then sets `uploading` and
`serialService.uploadInProgress`, disconnects the serial port, runs the gRPC
stream, and in the `finally` block resets both flags whether the stream
resolved or rejected. -/
def CoreServiceImpl.doUpload (env : CoreEnv) (self : CoreServiceImpl)
    (serialService : NodeSerialService) : UploadResult :=
  if env.compileFails then
    { threw := true, core := self, serial := serialService }
  else
    let self1 := { self with uploading := true }
    let serial1 := { serialService with uploadInProgress := true }
    let serial2 := { serial1 with portOpen := false }
    { threw := env.streamFails
      core := { self1 with uploading := false }
      serial := { serial2 with uploadInProgress := false } }

/-- `upload(options)`: delegates to `doUpload` with the plain upload request. -/
def CoreServiceImpl.upload (env : CoreEnv) (self : CoreServiceImpl)
    (serialService : NodeSerialService) : UploadResult :=
  self.doUpload env serialService

/-- `uploadUsingProgrammer(options)`: delegates to `doUpload` with the
programmer request. -/
def CoreServiceImpl.uploadUsingProgrammer (env : CoreEnv) (self : CoreServiceImpl)
    (serialService : NodeSerialService) : UploadResult :=
  self.doUpload env serialService

/-- `burnBootloader(options)`: sets both flags, disconnects the serial port,
runs the gRPC stream, and in the `finally` block resets both flags whether
the stream resolved or rejected (there is no compilation step). -/
def CoreServiceImpl.burnBootloader (env : CoreEnv) (self : CoreServiceImpl)
    (serialService : NodeSerialService) : UploadResult :=
  let self1 := { self with uploading := true }
  let serial1 := { serialService with uploadInProgress := true }
  let serial2 := { serial1 with portOpen := false }
  { threw := env.streamFails
    core := { self1 with uploading := false }
    serial := { serial2 with uploadInProgress := false } }

/-! ### Sample fixtures used by witnesses and counterexamples -/

/-- A concrete board. -/
def sampleBoard : Board :=
  { name := "Arduino Uno", fqbn := some "arduino:avr:uno" }

/-- A concrete port. -/
def samplePort : Port :=
  { address := "/dev/ttyACM0" }

/-- A complete concrete configuration at 9600 baud. -/
def sampleConfig : OptionalSerialConfig :=
  { board := some sampleBoard, port := some samplePort, baudRate := some 9600 }

/-- An environment in which every external call succeeds and no upload runs. -/
def okEnv : Env :=
  { uploading := false, connectStatus := Status.ok
    disconnectStatus := Status.ok, wsCreateOk := true }

/-- A manager with the monitor attached, a complete config, a known relay
port and a live relay WebSocket. -/
def sampleMgr : SerialConnectionManager :=
  { state := [SerialType.monitor], config := sampleConfig, serialErrors := []
    reconnectTimeout := none, wsPort := some 8080, webSocket := true }

/-- A concrete device-busy error. -/
def busyError : SerialError :=
  { code := some SerialErrorCode.deviceBusy, config := sampleConfig }

/-! ### C1 -/

/-- C1: a `setConfig` that changes only the baud rate — while the backend
session is open, a consumer is attached, no upload is in progress, the merged
configuration is complete, and the backend disconnect succeeds — merges the
baud rate into the stored config leaving board and port unchanged, and its
backend calls are exactly one disconnect followed by one connect carrying the
merged configuration. -/
theorem setConfig_baudRateOnly_reconnects
    (env : Env) (newConfig : OptionalSerialConfig)
    (m : SerialConnectionManager) (b : Backend)
    (hboard : newConfig.board = m.config.board)
    (hport : newConfig.port = m.config.port)
    (hbaud : newConfig.baudRate ≠ m.config.baudRate)
    (hvalid : isSerialConfig ⟨m.config.board, m.config.port, newConfig.baudRate⟩ = true)
    (hopen : b.portOpen = true)
    (hw : m.widgetsAttached = true)
    (hup : env.uploading = false)
    (hdisc : env.disconnectStatus.isOK = true) :
    (SerialConnectionManager.setConfig env newConfig m b).mgr.config
      = ⟨m.config.board, m.config.port, newConfig.baudRate⟩
    ∧ backendCalls (SerialConnectionManager.setConfig env newConfig m b).effs
      = [Eff.beDisconnect,
         Eff.beConnect ⟨m.config.board, m.config.port, newConfig.baudRate⟩] := by
  have hchanged : configChangedFrom m.config newConfig = true := by
    simp [configChangedFrom, hbaud]
  have hmerge : mergedConfigFrom m.config newConfig =
      ⟨m.config.board, m.config.port, newConfig.baudRate⟩ := by
    simp [mergedConfigFrom, hboard, hport, hbaud]
  have hw' : widgetsAttachedOn m.state = true := hw
  unfold SerialConnectionManager.setConfig
  simp only [hmerge, hchanged, SerialConnectionManager.widgetsAttached, hw', hup,
    SerialConnectionManager.disconnect, SerialConnectionManager.connect,
    hopen, hdisc, if_true, if_false]
  simp [hvalid, backendCalls, List.filter, Eff.isBackendCall]

/-- Witness for C1: a concrete baud-rate-only update (9600 → 115200) on a
manager with the monitor attached and the port open. -/
theorem setConfig_baudRateOnly_reconnects_witness :
    (sampleConfig.board, sampleConfig.port, some 115200).1 = sampleMgr.config.board
    ∧ ((SerialConnectionManager.setConfig okEnv
        ⟨sampleConfig.board, sampleConfig.port, some 115200⟩ sampleMgr ⟨true⟩).mgr.config
      = ⟨sampleMgr.config.board, sampleMgr.config.port, some 115200⟩
    ∧ backendCalls (SerialConnectionManager.setConfig okEnv
        ⟨sampleConfig.board, sampleConfig.port, some 115200⟩ sampleMgr ⟨true⟩).effs
      = [Eff.beDisconnect,
         Eff.beConnect ⟨sampleMgr.config.board, sampleMgr.config.port, some 115200⟩]) :=
  ⟨by decide,
   setConfig_baudRateOnly_reconnects okEnv
     ⟨sampleConfig.board, sampleConfig.port, some 115200⟩ sampleMgr ⟨true⟩
     (by decide) (by decide) (by decide) (by decide) (by decide) (by decide)
     (by decide) (by decide)⟩

/-! ### C2 -/

/-- C2 counterexample: starting from the initial manager, learn the relay
port, set a complete config, open the monitor (which opens the session and
creates the relay WebSocket), then let the coordinator disconnect.  The relay
WebSocket survives the disconnect while the backend session is closed, so the
claimed invariant — and the claimed teardown on every coordinator disconnect —
fails on this concrete run. -/
theorem relay_invariant_counterexample :
    (SerialConnectionManager.disconnect okEnv
      (SerialConnectionManager.openSerial okEnv SerialType.monitor
        (SerialConnectionManager.setConfig okEnv sampleConfig
          (SerialConnectionManager.init.handleWebSocketChanged 8080) ⟨false⟩).mgr
        ⟨false⟩).mgr
      (SerialConnectionManager.openSerial okEnv SerialType.monitor
        (SerialConnectionManager.setConfig okEnv sampleConfig
          (SerialConnectionManager.init.handleWebSocketChanged 8080) ⟨false⟩).mgr
        ⟨false⟩).backend).mgr.webSocket = true
    ∧ (SerialConnectionManager.disconnect okEnv
      (SerialConnectionManager.openSerial okEnv SerialType.monitor
        (SerialConnectionManager.setConfig okEnv sampleConfig
          (SerialConnectionManager.init.handleWebSocketChanged 8080) ⟨false⟩).mgr
        ⟨false⟩).mgr
      (SerialConnectionManager.openSerial okEnv SerialType.monitor
        (SerialConnectionManager.setConfig okEnv sampleConfig
          (SerialConnectionManager.init.handleWebSocketChanged 8080) ⟨false⟩).mgr
        ⟨false⟩).backend).backend.portOpen = false := by
  decide

/-- C2 amended: the relay WebSocket is torn down on a successful
`closeSerial(Monitor)`, but `disconnect()` itself never touches it, so the
relay channel can outlive the backend session. -/
theorem relay_teardown_on_closeSerial (env : Env) (m : SerialConnectionManager)
    (b : Backend) :
    (SerialConnectionManager.disconnect env m b).mgr.webSocket = m.webSocket
    ∧ (SerialType.monitor ∈ m.state →
       (SerialConnectionManager.closeSerial env SerialType.monitor m b).status.isOK = true →
       (SerialConnectionManager.closeSerial env SerialType.monitor m b).mgr.webSocket = false) := by
  constructor
  · by_cases hp : b.portOpen <;> simp [SerialConnectionManager.disconnect, hp]
    by_cases hd : env.disconnectStatus.isOK <;> simp [hd]
  · intro hm hok
    unfold SerialConnectionManager.closeSerial at hok ⊢
    rw [if_pos hm] at hok ⊢
    by_cases hws :
        (SerialConnectionManager.setState env (m.state.erase SerialType.monitor) m b).mgr.webSocket = true
    · by_cases hst :
          (SerialConnectionManager.setState env (m.state.erase SerialType.monitor) m b).status.isOK = true
      · rw [if_pos ⟨hst, rfl, hws⟩]
      · rw [if_neg] at hok
        · exact absurd hok hst
        · rintro ⟨h1, -, -⟩
          exact hst h1
    · rw [if_neg]
      · simpa using hws
      · rintro ⟨-, -, h3⟩
        exact hws h3

/-- Witness for the amended C2 at a concrete state: closing the monitor on a
manager whose only consumer is the monitor succeeds and closes the relay
WebSocket. -/
theorem relay_teardown_on_closeSerial_witness :
    SerialType.monitor ∈ sampleMgr.state
    ∧ (SerialConnectionManager.closeSerial okEnv SerialType.monitor sampleMgr ⟨true⟩).status.isOK = true
    ∧ (SerialConnectionManager.closeSerial okEnv SerialType.monitor sampleMgr ⟨true⟩).mgr.webSocket = false :=
  ⟨by decide, by decide,
   (relay_teardown_on_closeSerial okEnv sampleMgr ⟨true⟩).2 (by decide) (by decide)⟩

/-! ### C3 -/

/-- C3 counterexample: (1) two `connect()` calls in a row with no intervening
`disconnect()` — on the initial (incomplete) config — return `NOT_CONNECTED`
twice, not `ALREADY_CONNECTED` on the second call; (2) with a complete config
and a closed port, the backend connect call returns `Status.ok` but
`connect()` returns the boolean coercion `Status.fromBool true`, not that
call's status. -/
theorem connect_contract_counterexample :
    (SerialConnectionManager.connect okEnv
        (SerialConnectionManager.connect okEnv SerialConnectionManager.init ⟨false⟩).mgr
        (SerialConnectionManager.connect okEnv SerialConnectionManager.init ⟨false⟩).backend).status
      ≠ Status.alreadyConnected
    ∧ (SerialConnectionManager.connect okEnv sampleMgr ⟨false⟩).status ≠ okEnv.connectStatus := by
  decide

/-- C3 amended: `connect()` returns `ALREADY_CONNECTED` without a backend call
when the port is already open; returns `NOT_CONNECTED` without a backend call
on an incomplete config; otherwise issues exactly one backend connect and
returns the boolean-coerced success of that call (`isOK`-equivalent to the
backend status, not that status itself); and when such a call opens the
session, a subsequent `connect()` with no intervening `disconnect()` returns
`ALREADY_CONNECTED` with no backend call. -/
theorem connect_contract (env : Env) (m : SerialConnectionManager) (b : Backend) :
    (b.portOpen = true →
      SerialConnectionManager.connect env m b = ⟨Status.alreadyConnected, m, b, []⟩)
    ∧ (b.portOpen = false → isSerialConfig m.config = false →
      SerialConnectionManager.connect env m b = ⟨Status.notConnected, m, b, []⟩)
    ∧ (b.portOpen = false → isSerialConfig m.config = true →
      SerialConnectionManager.connect env m b
        = ⟨Status.fromBool env.connectStatus.isOK, m, ⟨env.connectStatus.isOK⟩,
           [Eff.beConnect m.config]⟩
      ∧ (SerialConnectionManager.connect env m b).status.isOK = env.connectStatus.isOK)
    ∧ (b.portOpen = false → isSerialConfig m.config = true →
       env.connectStatus.isOK = true →
      SerialConnectionManager.connect env
          (SerialConnectionManager.connect env m b).mgr
          (SerialConnectionManager.connect env m b).backend
        = ⟨Status.alreadyConnected, m, ⟨true⟩, []⟩) := by
  refine ⟨?_, ?_, ?_, ?_⟩
  · intro h1
    simp [SerialConnectionManager.connect, h1]
  · intro h1 h2
    simp [SerialConnectionManager.connect, h1, h2]
  · intro h1 h2
    simp [SerialConnectionManager.connect, h1, h2, Status.isOK]
  · intro h1 h2 h3
    simp [SerialConnectionManager.connect, h1, h2, h3]

/-- Witness for the amended C3 at a concrete state: with a complete config
and a closed port, a successful `connect()` followed by a second `connect()`
yields `ALREADY_CONNECTED` and no further backend call. -/
theorem connect_contract_witness :
    (⟨false⟩ : Backend).portOpen = false
    ∧ isSerialConfig sampleMgr.config = true
    ∧ okEnv.connectStatus.isOK = true
    ∧ SerialConnectionManager.connect okEnv
        (SerialConnectionManager.connect okEnv sampleMgr ⟨false⟩).mgr
        (SerialConnectionManager.connect okEnv sampleMgr ⟨false⟩).backend
      = ⟨Status.alreadyConnected, sampleMgr, ⟨true⟩, []⟩ :=
  ⟨rfl, by decide, rfl,
   (connect_contract okEnv sampleMgr ⟨false⟩).2.2.2 rfl (by decide) rfl⟩

/-! ### C4 and C5 -/

/-- The `switch` of `handleError` does not change the desired-consumer state. -/
theorem classifyError_state (error : SerialError) (m : SerialConnectionManager) :
    (m.classifyError error).state = m.state := by
  unfold SerialConnectionManager.classifyError
  rcases error with ⟨code, cfg⟩
  cases code with
  | none => rfl
  | some c => cases c <;> rfl

/-- The `switch` of `handleError` does not change the pending retry timer. -/
theorem classifyError_reconnectTimeout (error : SerialError) (m : SerialConnectionManager) :
    (m.classifyError error).reconnectTimeout = m.reconnectTimeout := by
  unfold SerialConnectionManager.classifyError
  rcases error with ⟨code, cfg⟩
  cases code with
  | none => rfl
  | some c => cases c <;> rfl

/-- The `switch` of `handleError` emits only messages: no timer effects. -/
theorem classifyErrorEffs_no_timer (error : SerialError) :
    (classifyErrorEffs error).filter Eff.isSchedule = []
    ∧ (classifyErrorEffs error).filter Eff.isClearTimer = [] := by
  unfold classifyErrorEffs
  rcases error with ⟨code, cfg⟩
  cases code with
  | none => simp [List.filter, Eff.isSchedule, Eff.isClearTimer]
  | some c => cases c <;> simp [List.filter, Eff.isSchedule, Eff.isClearTimer]

/-- `serialErrors.length || 1` equals `max 1 length`. -/
theorem attempts_eq_max (n : Nat) : (if n = 0 then 1 else n) = max 1 n := by
  cases n with
  | zero => rfl
  | succ k =>
    rw [Nat.max_eq_right (Nat.succ_le_succ (Nat.zero_le k))]
    simp

/-- C4: when `handleError` runs with the port open, a consumer attached, and
fewer than 10 recorded errors after classification, it schedules exactly one
reconnect delayed by `max 1 historyLength * 1000` milliseconds, and cancels
the previously scheduled retry timer exactly when one was pending. -/
theorem handleError_schedules_backoff
    (error : SerialError) (m : SerialConnectionManager) (b : Backend)
    (hopen : b.portOpen = true)
    (hw : m.widgetsAttached = true)
    (hlen : (m.classifyError error).serialErrors.length < 10) :
    (SerialConnectionManager.handleError error m b).effs.filter Eff.isSchedule
      = [Eff.scheduleReconnect (max 1 (m.classifyError error).serialErrors.length * 1000)]
    ∧ (SerialConnectionManager.handleError error m b).effs.filter Eff.isClearTimer
      = (if m.reconnectTimeout.isSome then [Eff.clearReconnectTimeout] else []) := by
  have hw1 : (m.classifyError error).widgetsAttached = true := by
    unfold SerialConnectionManager.widgetsAttached
    rw [classifyError_state]
    exact hw
  unfold SerialConnectionManager.handleError
  rw [if_neg (by simp [hopen])]
  simp only [hw1, if_true, if_neg (Nat.not_le.mpr hlen)]
  rw [classifyError_reconnectTimeout]
  by_cases hrt : m.reconnectTimeout.isSome
  all_goals
    simp [hrt, List.filter_append, (classifyErrorEffs_no_timer error).1,
      (classifyErrorEffs_no_timer error).2, List.filter, Eff.isSchedule, Eff.isClearTimer,
      attempts_eq_max]
  all_goals
    generalize (SerialConnectionManager.classifyError error m).serialErrors = l
    cases l with
    | nil => decide
    | cons x xs =>
      rw [sup_eq_right.mpr (by simp)]
      simp

/-- A manager that has already recorded two device-busy errors. -/
def twoBusyMgr : SerialConnectionManager :=
  { sampleMgr with serialErrors := [busyError, busyError] }

/-- Witness for C4: handling the third consecutive device-busy error (with
the monitor attached) schedules the fourth connect attempt after 3000 ms. -/
theorem handleError_schedules_backoff_witness :
    (⟨true⟩ : Backend).portOpen = true
    ∧ twoBusyMgr.widgetsAttached = true
    ∧ (twoBusyMgr.classifyError busyError).serialErrors.length < 10
    ∧ (SerialConnectionManager.handleError busyError twoBusyMgr ⟨true⟩).effs.filter Eff.isSchedule
      = [Eff.scheduleReconnect 3000] :=
  ⟨rfl, by decide, by decide,
   by
    have h := (handleError_schedules_backoff busyError twoBusyMgr ⟨true⟩
      rfl (by decide) (by decide)).1
    simpa [twoBusyMgr, SerialConnectionManager.classifyError, busyError] using h⟩

/-- C5: when `handleError` runs with the port open, a consumer attached, and
the error history at its bound of 10 after classification, it warns the user,
clears the history, and schedules no reconnect. -/
theorem handleError_gives_up
    (error : SerialError) (m : SerialConnectionManager) (b : Backend)
    (hopen : b.portOpen = true)
    (hw : m.widgetsAttached = true)
    (hlen : 10 ≤ (m.classifyError error).serialErrors.length) :
    (SerialConnectionManager.handleError error m b).mgr.serialErrors = []
    ∧ Eff.message Severity.warn MsgTag.failedAfterTenAttempts
        ∈ (SerialConnectionManager.handleError error m b).effs
    ∧ (SerialConnectionManager.handleError error m b).effs.filter Eff.isSchedule = [] := by
  have hw1 : (m.classifyError error).widgetsAttached = true := by
    unfold SerialConnectionManager.widgetsAttached
    rw [classifyError_state]
    exact hw
  unfold SerialConnectionManager.handleError
  rw [if_neg (by simp [hopen])]
  simp only [hw1, if_true, if_pos hlen]
  refine ⟨by simp, by simp, ?_⟩
  simp [List.filter_append, (classifyErrorEffs_no_timer error).1, List.filter, Eff.isSchedule]

/-- A manager that has already recorded nine device-busy errors. -/
def nineBusyMgr : SerialConnectionManager :=
  { sampleMgr with serialErrors := List.replicate 9 busyError }

/-- Witness for C5: the tenth consecutive device-busy error (with the monitor
attached) clears the history, warns, and schedules nothing. -/
theorem handleError_gives_up_witness :
    (⟨true⟩ : Backend).portOpen = true
    ∧ nineBusyMgr.widgetsAttached = true
    ∧ 10 ≤ (nineBusyMgr.classifyError busyError).serialErrors.length
    ∧ ((SerialConnectionManager.handleError busyError nineBusyMgr ⟨true⟩).mgr.serialErrors = []
    ∧ Eff.message Severity.warn MsgTag.failedAfterTenAttempts
        ∈ (SerialConnectionManager.handleError busyError nineBusyMgr ⟨true⟩).effs
    ∧ (SerialConnectionManager.handleError busyError nineBusyMgr ⟨true⟩).effs.filter Eff.isSchedule = []) :=
  ⟨rfl, by decide, by decide,
   handleError_gives_up busyError nineBusyMgr ⟨true⟩ rfl (by decide) (by decide)⟩

/-! ### Frame lemmas shared by several claims -/

/-- `connect()` never mutates the manager's own fields. -/
theorem connect_mgr (env : Env) (m : SerialConnectionManager) (b : Backend) :
    (SerialConnectionManager.connect env m b).mgr = m := by
  unfold SerialConnectionManager.connect
  by_cases h1 : b.portOpen <;> simp [h1]
  by_cases h2 : isSerialConfig m.config <;> simp [h2]

/-- `disconnect()` leaves every manager field except `wsPort` unchanged. -/
theorem disconnect_mgr_fields (env : Env) (m : SerialConnectionManager) (b : Backend) :
    (SerialConnectionManager.disconnect env m b).mgr.serialErrors = m.serialErrors
    ∧ (SerialConnectionManager.disconnect env m b).mgr.state = m.state
    ∧ (SerialConnectionManager.disconnect env m b).mgr.config = m.config := by
  unfold SerialConnectionManager.disconnect
  by_cases h1 : b.portOpen <;> simp [h1]
  by_cases h2 : env.disconnectStatus.isOK <;> simp [h2]

/-! ### C6 -/

/-- C6 counterexample: a `setConfig` that changes the baud rate while no
consumer is attached performs no effect at all — in particular no propagation
of the baud rate and port address to the relay shared configuration — refuting
the claim that the propagation happens regardless of the reconnect
condition. -/
theorem setConfig_propagation_counterexample :
    configChangedFrom ({ sampleMgr with state := ([] : List SerialType) }).config
      ⟨sampleConfig.board, sampleConfig.port, some 115200⟩ = true
    ∧ (SerialConnectionManager.setConfig okEnv
        ⟨sampleConfig.board, sampleConfig.port, some 115200⟩
        { sampleMgr with state := ([] : List SerialType) } ⟨true⟩).effs = [] := by
  decide

/-- C6 amended: `setConfig` propagates the merged baud rate and port address
to the relay shared configuration exactly when a field changed, a consumer is
attached, and no upload is in progress — the same condition as the
disconnect/reconnect, which the propagation precedes; otherwise `setConfig`
performs no effect. -/
theorem setConfig_propagates_when_reconnecting
    (env : Env) (newConfig : OptionalSerialConfig)
    (m : SerialConnectionManager) (b : Backend) :
    (configChangedFrom m.config newConfig = true → m.widgetsAttached = true →
      env.uploading = false →
      (SerialConnectionManager.setConfig env newConfig m b).effs.head?
        = some (Eff.updateWsConfig (mergedConfigFrom m.config newConfig).baudRate
            ((mergedConfigFrom m.config newConfig).port.map Port.address)))
    ∧ (¬(configChangedFrom m.config newConfig = true ∧ m.widgetsAttached = true ∧
          env.uploading = false) →
      (SerialConnectionManager.setConfig env newConfig m b).effs = []) := by
  constructor
  · intro h1 h2 h3
    unfold SerialConnectionManager.setConfig
    rw [if_pos]
    · simp
    · exact ⟨h1, h2, h3⟩
  · intro h
    unfold SerialConnectionManager.setConfig
    rw [if_neg]
    intro hc
    exact h ⟨hc.1, hc.2.1, hc.2.2⟩

/-- Witness for the amended C6: a concrete baud-rate change with the monitor
attached and no upload running propagates the new baud rate and the port
address as the first effect. -/
theorem setConfig_propagates_when_reconnecting_witness :
    configChangedFrom sampleMgr.config ⟨sampleConfig.board, sampleConfig.port, some 115200⟩ = true
    ∧ sampleMgr.widgetsAttached = true
    ∧ okEnv.uploading = false
    ∧ (SerialConnectionManager.setConfig okEnv
        ⟨sampleConfig.board, sampleConfig.port, some 115200⟩ sampleMgr ⟨true⟩).effs.head?
      = some (Eff.updateWsConfig
          (mergedConfigFrom sampleMgr.config ⟨sampleConfig.board, sampleConfig.port, some 115200⟩).baudRate
          ((mergedConfigFrom sampleMgr.config ⟨sampleConfig.board, sampleConfig.port, some 115200⟩).port.map
            Port.address)) :=
  ⟨by decide, by decide, rfl,
   (setConfig_propagates_when_reconnecting okEnv
     ⟨sampleConfig.board, sampleConfig.port, some 115200⟩ sampleMgr ⟨true⟩).1
     (by decide) (by decide) rfl⟩

/-! ### C7 -/

/-- C7: closing the sole attached consumer while the backend session is open
(and the backend disconnect succeeds) issues exactly one backend disconnect,
no backend connect, and clears the saved relay endpoint. -/
theorem closeSerial_last_consumer
    (env : Env) (type : SerialType) (m : SerialConnectionManager) (b : Backend)
    (hstate : m.state = [type])
    (hopen : b.portOpen = true)
    (hdisc : env.disconnectStatus.isOK = true) :
    backendCalls (SerialConnectionManager.closeSerial env type m b).effs = [Eff.beDisconnect]
    ∧ (SerialConnectionManager.closeSerial env type m b).mgr.wsPort = none := by
  have hmem : type ∈ m.state := by
    rw [hstate]
    simp
  have herase : m.state.erase type = [] := by
    rw [hstate]
    simp
  unfold SerialConnectionManager.closeSerial
  rw [if_pos hmem, herase]
  have hsetstate : SerialConnectionManager.setState env [] m b
      = ⟨env.disconnectStatus, { m with wsPort := none, state := [] }, ⟨false⟩,
         [Eff.beDisconnect]⟩ := by
    unfold SerialConnectionManager.setState SerialConnectionManager.disconnect
    simp [hstate, widgetsAttachedOn, hopen, hdisc]
  rw [hsetstate]
  simp only []
  constructor
  · split <;> simp [backendCalls, List.filter, Eff.isBackendCall]
  · split <;> simp

/-- Witness for C7: closing the monitor — the sole consumer — on a concrete
open session issues one backend disconnect and clears the relay endpoint. -/
theorem closeSerial_last_consumer_witness :
    sampleMgr.state = [SerialType.monitor]
    ∧ (⟨true⟩ : Backend).portOpen = true
    ∧ okEnv.disconnectStatus.isOK = true
    ∧ (backendCalls (SerialConnectionManager.closeSerial okEnv SerialType.monitor sampleMgr ⟨true⟩).effs
        = [Eff.beDisconnect]
    ∧ (SerialConnectionManager.closeSerial okEnv SerialType.monitor sampleMgr ⟨true⟩).mgr.wsPort = none) :=
  ⟨rfl, rfl, rfl,
   closeSerial_last_consumer okEnv SerialType.monitor sampleMgr ⟨true⟩ rfl rfl rfl⟩

/-! ### C8 -/

/-- C8 counterexample: a successful external reconfiguration — a baud-rate
change that disconnects and reconnects, ending with the port open — leaves a
non-empty `serialErrors` history untouched, refuting the claim that the
history is cleared whenever an external reconfiguration succeeds. -/
theorem serialErrors_not_cleared_counterexample :
    (SerialConnectionManager.setConfig okEnv
        ⟨sampleConfig.board, sampleConfig.port, some 115200⟩
        { sampleMgr with serialErrors := [busyError] } ⟨true⟩).backend.portOpen = true
    ∧ (SerialConnectionManager.setConfig okEnv
        ⟨sampleConfig.board, sampleConfig.port, some 115200⟩
        { sampleMgr with serialErrors := [busyError] } ⟨true⟩).mgr.serialErrors ≠ [] := by
  decide

/-- C8 amended: the error history is never cleared by `setConfig` (successful
reconfiguration included); it is cleared exactly when error handling finds the
history at its bound of 10 entries with a consumer attached and the port
open. -/
theorem serialErrors_clearing
    (env : Env) (newConfig : OptionalSerialConfig) (m : SerialConnectionManager)
    (b : Backend) (error : SerialError) (m2 : SerialConnectionManager) (b2 : Backend) :
    (SerialConnectionManager.setConfig env newConfig m b).mgr.serialErrors = m.serialErrors
    ∧ (b2.portOpen = true → m2.widgetsAttached = true →
       10 ≤ (m2.classifyError error).serialErrors.length →
       (SerialConnectionManager.handleError error m2 b2).mgr.serialErrors = []) := by
  constructor
  · unfold SerialConnectionManager.setConfig
    simp only []
    split
    · rw [connect_mgr, (disconnect_mgr_fields env _ b).1]
    · simp
  · intro hopen hw hlen
    have hw1 : (m2.classifyError error).widgetsAttached = true := by
      unfold SerialConnectionManager.widgetsAttached
      rw [classifyError_state]
      exact hw
    unfold SerialConnectionManager.handleError
    rw [if_neg (by simp [hopen])]
    simp only [hw1, if_true, if_pos hlen]

/-- Witness for the amended C8: a concrete successful reconfiguration leaves
the history untouched, and a tenth consecutive device-busy error clears it. -/
theorem serialErrors_clearing_witness :
    (⟨true⟩ : Backend).portOpen = true
    ∧ nineBusyMgr.widgetsAttached = true
    ∧ 10 ≤ (nineBusyMgr.classifyError busyError).serialErrors.length
    ∧ ((SerialConnectionManager.setConfig okEnv sampleConfig sampleMgr ⟨true⟩).mgr.serialErrors
        = sampleMgr.serialErrors
    ∧ (SerialConnectionManager.handleError busyError nineBusyMgr ⟨true⟩).mgr.serialErrors = []) :=
  ⟨rfl, by decide, by decide,
   ⟨(serialErrors_clearing okEnv sampleConfig sampleMgr ⟨true⟩ busyError nineBusyMgr ⟨true⟩).1,
    (serialErrors_clearing okEnv sampleConfig sampleMgr ⟨true⟩ busyError nineBusyMgr ⟨true⟩).2
      rfl (by decide) (by decide)⟩⟩

/-! ### C9 -/

/-- C9: when a plotter window handle already exists, the plotter
contribution's `connect()` only focuses the existing window: the window state,
the serial-connection manager, and the backend are unchanged, and no
`openSerial(Plotter)` request or window-opening effect happens. -/
theorem plotter_connect_focuses_existing
    (env : Env) (p : PlotterFrontendContribution)
    (m : SerialConnectionManager) (b : Backend)
    (hw : p.window = true) :
    PlotterFrontendContribution.connect env p m b = ⟨p, m, b, [Eff.focusWindow]⟩ := by
  unfold PlotterFrontendContribution.connect
  simp [hw]

/-- Witness for C9: a second `connect()` with the window open focuses it and
does nothing else. -/
theorem plotter_connect_focuses_existing_witness :
    (⟨true⟩ : PlotterFrontendContribution).window = true
    ∧ PlotterFrontendContribution.connect okEnv ⟨true⟩ sampleMgr ⟨true⟩
      = ⟨⟨true⟩, sampleMgr, ⟨true⟩, [Eff.focusWindow]⟩ :=
  ⟨rfl, plotter_connect_focuses_existing okEnv ⟨true⟩ sampleMgr ⟨true⟩ rfl⟩

/-! ### C10 -/

/-- C10: starting from a quiescent service (no upload marked in progress),
every completed `upload`, `uploadUsingProgrammer`, or `burnBootloader` call —
whether its stream resolves or rejects, and whether the compilation step
throws — ends with `isUploading()` false and `serialService.uploadInProgress`
false. -/
theorem upload_flags_reset
    (env : CoreEnv) (core : CoreServiceImpl) (serial : NodeSerialService)
    (hup : core.uploading = false)
    (hsp : serial.uploadInProgress = false) :
    ((core.upload env serial).core.isUploading = false
      ∧ (core.upload env serial).serial.uploadInProgress = false)
    ∧ ((core.uploadUsingProgrammer env serial).core.isUploading = false
      ∧ (core.uploadUsingProgrammer env serial).serial.uploadInProgress = false)
    ∧ ((core.burnBootloader env serial).core.isUploading = false
      ∧ (core.burnBootloader env serial).serial.uploadInProgress = false) := by
  unfold CoreServiceImpl.upload CoreServiceImpl.uploadUsingProgrammer
    CoreServiceImpl.doUpload CoreServiceImpl.burnBootloader CoreServiceImpl.isUploading
  by_cases hc : env.compileFails <;> simp [hc, hup, hsp]

/-- Witness for C10: a concrete upload whose gRPC stream rejects still ends
with both flags reset. -/
theorem upload_flags_reset_witness :
    (⟨false⟩ : CoreServiceImpl).uploading = false
    ∧ (⟨false, true⟩ : NodeSerialService).uploadInProgress = false
    ∧ ((CoreServiceImpl.upload ⟨false, true⟩ ⟨false⟩ ⟨false, true⟩).core.isUploading = false
      ∧ (CoreServiceImpl.upload ⟨false, true⟩ ⟨false⟩ ⟨false, true⟩).serial.uploadInProgress = false) :=
  ⟨rfl, rfl,
   (upload_flags_reset ⟨false, true⟩ ⟨false⟩ ⟨false, true⟩ rfl rfl).1⟩
